import Mathlib

/-!
Shallow embedding of the flask-uploader-ationet batch-submission pipeline.

The embedding models, from the repository sources:
  * `csv_processor.py` — record identity (`create_record_id`), the processed
    and failed ledgers (`save_processed_record`, `save_failed_record`,
    `get_processed_records`) and the unprocessed-record filter
    (`get_unprocessed_records`);
  * `ationet_service.py` — the HTTP submission loop with retry/backoff
    (`send_vehicle_data`), with the remote endpoint's per-attempt behaviour
    supplied as an oracle;
  * `vehicle_processor.py` — the per-record classification loop
    (`process_record`, `process_batch`), the batch partition with
    inter-batch pacing (`batch_partition`) and the status computation
    (`get_processing_status`).

File-system state (ledger files on disk) is passed explicitly; timestamps
(`pd.Timestamp.now()`) and HTTP responses are supplied as parameters, so every
definition is a pure function of its inputs.
-/

/-- A CSV row after `load_csv_data`'s column validation, with every required
field present.  Python reads the cells and applies `str(...)` before they are
used for id derivation, so all fields are modelled as strings. -/
structure Row where
  IdVehicleType : String
  Brand : String
  Model : String
  TheoricalConsumption : String
  IdCompany : String
  IdFuelMaster : String
  VolumeLimit : String
deriving Repr, DecidableEq

/-- Python `str.strip()`: removes leading and trailing whitespace. -/
def pyStrip (s : String) : String :=
  ⟨((s.data.dropWhile Char.isWhitespace).reverse.dropWhile Char.isWhitespace).reverse⟩

/-- Python `str.upper()`: upper-cases every character. -/
def pyUpper (s : String) : String :=
  ⟨s.data.map Char.toUpper⟩

/-- Python `sep.join(fields)`: the fields interleaved with the separator. -/
def pyJoin (sep : String) : List String → String
  | [] => ""
  | [x] => x
  | x :: xs => x ++ sep ++ pyJoin sep xs

/-- `CSVProcessor.create_record_id`: joins the key fields with "_", with
`Brand` and `Model` stripped of surrounding whitespace and upper-cased. -/
def create_record_id (row : Row) : String :=
  pyJoin "_"
    [row.IdVehicleType, pyUpper (pyStrip row.Brand), pyUpper (pyStrip row.Model),
     row.IdCompany, row.IdFuelMaster]

/-- The state of the processed-ledger file as found on disk. -/
inductive LedgerFile where
  /-- the file does not exist -/
  | missing : LedgerFile
  /-- the file exists but opening, reading or JSON-parsing it raises -/
  | unreadable (msg : String) : LedgerFile
  /-- the file parses to a JSON object; `ids` is the value of its
      "processed_ids" key, `none` when the key is absent -/
  | parsed (ids : Option (List String)) : LedgerFile
deriving Repr, DecidableEq

/-- `CSVProcessor.get_processed_records`: returns the "processed_ids" list of
the ledger file; a missing file yields `[]`, any read/parse exception is
caught and yields `[]`, and a parsed object without the key yields the
`data.get("processed_ids", [])` default `[]`. -/
def get_processed_records : LedgerFile → List String
  | .missing => []
  | .unreadable _ => []
  | .parsed ids => ids.getD []

/-- `CSVProcessor.get_unprocessed_records`: walks the CSV rows in order,
derives each row's id and keeps the pairs whose id is not in the processed
ledger.  No deduplication of ids within the same run takes place. -/
def get_unprocessed_records (rows : List Row) (processed_ids : List String) :
    List (String × Row) :=
  rows.foldl
    (fun acc row =>
      if create_record_id row ∈ processed_ids then acc
      else acc ++ [(create_record_id row, row)])
    []

theorem get_unprocessed_records_eq (rows : List Row) (pids : List String) :
    get_unprocessed_records rows pids =
      (rows.filter (fun r => decide (create_record_id r ∉ pids))).map
        (fun r => (create_record_id r, r)) := by
  have go : ∀ (rs : List Row) (acc : List (String × Row)),
      rs.foldl
        (fun acc row =>
          if create_record_id row ∈ pids then acc
          else acc ++ [(create_record_id row, row)]) acc =
      acc ++ (rs.filter (fun r => decide (create_record_id r ∉ pids))).map
        (fun r => (create_record_id r, r)) := by
    intro rs
    induction rs with
    | nil => intro acc; simp
    | cons r rs ih =>
      intro acc
      by_cases h : create_record_id r ∈ pids
      · simp [List.foldl_cons, h, ih]
      · simp [List.foldl_cons, h, ih]
  simpa using go rows []

theorem get_unprocessed_records_nil_ledger (rows : List Row) :
    get_unprocessed_records rows [] =
      rows.map (fun r => (create_record_id r, r)) := by
  simp [get_unprocessed_records_eq]

/-- C4: for any two rows agreeing on IdVehicleType, IdCompany and IdFuelMaster
whose Brand and Model agree after stripping surrounding whitespace and ignoring
case, `create_record_id` yields the identical id, and that id has the form
IdVehicleType_upper(strip(Brand))_upper(strip(Model))_IdCompany_IdFuelMaster. -/
theorem create_record_id_key_equality (r1 r2 : Row)
    (hvt : r1.IdVehicleType = r2.IdVehicleType)
    (hb : pyUpper (pyStrip r1.Brand) = pyUpper (pyStrip r2.Brand))
    (hm : pyUpper (pyStrip r1.Model) = pyUpper (pyStrip r2.Model))
    (hc : r1.IdCompany = r2.IdCompany)
    (hf : r1.IdFuelMaster = r2.IdFuelMaster) :
    create_record_id r1 = create_record_id r2 ∧
    create_record_id r1 =
      r1.IdVehicleType ++ "_" ++ pyUpper (pyStrip r1.Brand) ++ "_" ++
        pyUpper (pyStrip r1.Model) ++ "_" ++ r1.IdCompany ++ "_" ++
        r1.IdFuelMaster := by
  constructor
  · simp [create_record_id, hvt, hb, hm, hc, hf]
  · simp [create_record_id, pyJoin, String.append_assoc]

theorem create_record_id_key_equality_witness :
    create_record_id ⟨"T1", " ford", "Focus ", "10", "C1", "F1", "99"⟩ =
      create_record_id ⟨"T1", "FORD", "FOCUS", "12", "C1", "F1", "100"⟩ ∧
    create_record_id ⟨"T1", " ford", "Focus ", "10", "C1", "F1", "99"⟩ =
      "T1_FORD_FOCUS_C1_F1" := by
  have h := create_record_id_key_equality
    ⟨"T1", " ford", "Focus ", "10", "C1", "F1", "99"⟩
    ⟨"T1", "FORD", "FOCUS", "12", "C1", "F1", "100"⟩
    rfl (by decide) (by decide) rfl rfl
  exact ⟨h.1, h.2.trans (by decide)⟩

/-- First CSV row of the end-to-end scenario of the spec. -/
def c2RowA : Row := ⟨"T1", "ford", "Focus", "10", "C1", "F1", "100"⟩

/-- Second row: same identity as `c2RowA` up to casing of Brand/Model. -/
def c2RowB : Row := ⟨"T1", "FORD", "FOCUS", "10", "C1", "F1", "100"⟩

/-- Third row: a distinct identity. -/
def c2RowC : Row := ⟨"T2", "Toyota", "Hilux", "12", "C1", "F2", "90"⟩

/-- C2 counterexample: on a 3-row CSV where two rows share a derived identity
(Brand/Model differing only in casing) and the ledger is empty,
`get_unprocessed_records` returns 3 entries, not 2: it performs no intra-run
collapsing of rows with equal ids. -/
theorem get_unprocessed_records_no_intra_run_collapse :
    create_record_id c2RowA = create_record_id c2RowB ∧
    create_record_id c2RowA ≠ create_record_id c2RowC ∧
    (get_unprocessed_records [c2RowA, c2RowB, c2RowC] []).length = 3 ∧
    ¬ (get_unprocessed_records [c2RowA, c2RowB, c2RowC] []).length = 2 := by
  decide

/-- C2 amended: on that CSV with an empty ledger, `get_unprocessed_records`
returns one entry per row — 3 entries, the two rows of the shared identity
both present and carrying the identical id, plus the distinct row. -/
theorem get_unprocessed_records_three_rows :
    get_unprocessed_records [c2RowA, c2RowB, c2RowC] [] =
      [("T1_FORD_FOCUS_C1_F1", c2RowA), ("T1_FORD_FOCUS_C1_F1", c2RowB),
       ("T2_TOYOTA_HILUX_C1_F2", c2RowC)] := by
  decide

/-- C10: a missing ledger file, or one that cannot be read or parsed, makes
`get_processed_records` return the empty list (the exception is caught), and
consequently every CSV row is classified unprocessed and eligible again. -/
theorem get_processed_records_corruption_tolerant (e : String) (rows : List Row) :
    get_processed_records .missing = [] ∧
    get_processed_records (.unreadable e) = [] ∧
    get_unprocessed_records rows (get_processed_records (.unreadable e)) =
      rows.map (fun r => (create_record_id r, r)) ∧
    get_unprocessed_records rows (get_processed_records .missing) =
      rows.map (fun r => (create_record_id r, r)) := by
  refine ⟨rfl, rfl, ?_, ?_⟩ <;>
    simp [get_processed_records, get_unprocessed_records_nil_ledger]

/-- One entry of the processed ledger's "records" list. -/
structure ProcEntry where
  id : String
  data : Row
  processed_at : String
deriving Repr, DecidableEq

/-- The JSON object held in the processed-ledger file: a list of ids and a
parallel list of full entries. -/
structure ProcessedData where
  processed_ids : List String
  records : List ProcEntry
deriving Repr, DecidableEq

/-- `CSVProcessor.save_processed_record`: read-modify-write of the processed
ledger; appends the id and a timestamped entry only when the id is not yet
present, otherwise leaves the ledger unchanged.  The timestamp
(`pd.Timestamp.now()`) is passed in as `now`. -/
def save_processed_record (record_id : String) (record_data : Row)
    (now : String) (d : ProcessedData) : ProcessedData :=
  if record_id ∈ d.processed_ids then d
  else ⟨d.processed_ids ++ [record_id],
        d.records ++ [⟨record_id, record_data, now⟩]⟩

theorem save_processed_record_mem (i : String) (r : Row) (t : String)
    (d : ProcessedData) : i ∈ (save_processed_record i r t d).processed_ids := by
  unfold save_processed_record
  by_cases h : i ∈ d.processed_ids <;> simp [h]

theorem foldl_save_of_mem (i : String) (marks : List (Row × String)) :
    ∀ d : ProcessedData, i ∈ d.processed_ids →
      marks.foldl (fun acc m => save_processed_record i m.1 m.2 acc) d = d := by
  induction marks with
  | nil => intro d _; rfl
  | cons m ms ih =>
    intro d h
    simp only [List.foldl_cons]
    rw [show save_processed_record i m.1 m.2 d = d by
      simp [save_processed_record, h]]
    exact ih d h

/-- C3: marking an id that is already in the processed ledger is a no-op —
no second id and no second timestamped entry is appended — and marking the
same id any number of times grows `processed_ids` and `records` by at most
one entry each. -/
theorem save_processed_record_idempotent (d d' : ProcessedData) (i : String)
    (r : Row) (t : String) (marks : List (Row × String))
    (h : i ∈ d.processed_ids) :
    save_processed_record i r t d = d ∧
    (marks.foldl (fun acc m => save_processed_record i m.1 m.2 acc)
        d').processed_ids.length ≤ d'.processed_ids.length + 1 ∧
    (marks.foldl (fun acc m => save_processed_record i m.1 m.2 acc)
        d').records.length ≤ d'.records.length + 1 := by
  refine ⟨by simp [save_processed_record, h], ?_, ?_⟩ <;>
  · cases marks with
    | nil => simp
    | cons m ms =>
      simp only [List.foldl_cons]
      rw [foldl_save_of_mem i ms _ (save_processed_record_mem ..)]
      unfold save_processed_record
      by_cases hm : i ∈ d'.processed_ids <;> simp [hm]

/-- A concrete processed ledger holding one already-marked id. -/
def procLedgerEx : ProcessedData :=
  ⟨["T1_FORD_FOCUS_C1_F1"], [⟨"T1_FORD_FOCUS_C1_F1", c2RowA, "t0"⟩]⟩

theorem save_processed_record_idempotent_witness :
    save_processed_record "T1_FORD_FOCUS_C1_F1" c2RowB "t1" procLedgerEx =
      procLedgerEx ∧
    (([(c2RowA, "t1"), (c2RowB, "t2")] : List (Row × String)).foldl
        (fun acc m =>
          save_processed_record "T1_FORD_FOCUS_C1_F1" m.1 m.2 acc)
        (⟨[], []⟩ : ProcessedData)).processed_ids.length ≤
      (⟨[], []⟩ : ProcessedData).processed_ids.length + 1 ∧
    (([(c2RowA, "t1"), (c2RowB, "t2")] : List (Row × String)).foldl
        (fun acc m =>
          save_processed_record "T1_FORD_FOCUS_C1_F1" m.1 m.2 acc)
        (⟨[], []⟩ : ProcessedData)).records.length ≤
      (⟨[], []⟩ : ProcessedData).records.length + 1 :=
  save_processed_record_idempotent procLedgerEx ⟨[], []⟩
    "T1_FORD_FOCUS_C1_F1" c2RowB "t1" [(c2RowA, "t1"), (c2RowB, "t2")]
    (by decide)

/-- One entry of the failed ledger's "failed_records" list. -/
structure FailEntry where
  id : String
  data : Row
  error : String
  failed_at : String
deriving Repr, DecidableEq

/-- The JSON object held in the failed-ledger file. -/
structure FailedData where
  failed_records : List FailEntry
deriving Repr, DecidableEq

/-- `CSVProcessor.save_failed_record`: unconditionally appends a new
(id, data, error, timestamp) entry to the failed ledger. -/
def save_failed_record (record_id : String) (record_data : Row)
    (error_message : String) (now : String) (d : FailedData) : FailedData :=
  ⟨d.failed_records ++ [⟨record_id, record_data, error_message, now⟩]⟩

/-- C7: two failed attempts for the same id append two distinct entries to the
failed ledger — the entry count for that id grows by exactly 2. -/
theorem save_failed_record_append_only (d : FailedData) (i : String)
    (r1 r2 : Row) (e1 e2 t1 t2 : String) :
    (save_failed_record i r2 e2 t2
        (save_failed_record i r1 e1 t1 d)).failed_records =
      d.failed_records ++ [⟨i, r1, e1, t1⟩, ⟨i, r2, e2, t2⟩] ∧
    ((save_failed_record i r2 e2 t2
          (save_failed_record i r1 e1 t1 d)).failed_records.filter
        (fun en => en.id == i)).length =
      (d.failed_records.filter (fun en => en.id == i)).length + 2 := by
  constructor
  · simp [save_failed_record]
  · simp [save_failed_record, List.filter_append]

/-- `l` starts with the pattern `pat` (character-by-character). -/
def startsWithPat : List Char → List Char → Bool
  | _, [] => true
  | [], _ :: _ => false
  | a :: as, b :: bs => a == b && startsWithPat as bs

/-- `pat` occurs contiguously somewhere in `l`. -/
def hasSubPat (l pat : List Char) : Bool :=
  match l with
  | [] => pat.isEmpty
  | _ :: as => startsWithPat l pat || hasSubPat as pat

/-- Python `sub in s` on strings: contiguous substring containment. -/
def strContains (s sub : String) : Bool :=
  hasSubPat s.data sub.data

/-- Python `str.lower()`: lower-cases every character. -/
def pyLower (s : String) : String :=
  ⟨s.data.map Char.toLower⟩

/-- The duplicate test of `VehicleDataProcessor._process_batch`:
"duplicate" in error.lower() or "conflict" in error.lower() or "409" in error. -/
def is_duplicate_error (error : String) : Bool :=
  strContains (pyLower error) "duplicate" ||
    strContains (pyLower error) "conflict" || strContains error "409"

/-- Python truthiness of the optional error string: `None` and "" are falsy. -/
def errTruthy : Option String → Bool
  | some s => !(s == "")
  | none => false

/-- Python `error or "Error desconocido"`. -/
def errOrUnknown : Option String → String
  | some s => if s == "" then "Error desconocido" else s
  | none => "Error desconocido"

/-- Python f-string interpolation of an optional string (None prints "None"). -/
def pyShowOpt : Option String → String
  | some s => s
  | none => "None"

/-- What handling one record inside `_process_batch` amounts to: the
submission returns success, returns failure with an error value, or some step
(`format_vehicle_data`, the HTTP client, ...) raises an exception that the
per-record handler catches. -/
inductive RecOutcome where
  | success : RecOutcome
  | failure (error : Option String) : RecOutcome
  | raised (msg : String) : RecOutcome
deriving Repr, DecidableEq

/-- The two ledger files threaded through the orchestrator. -/
structure Ledgers where
  processed : ProcessedData
  failed : FailedData
deriving Repr, DecidableEq

/-- The per-batch counters and error list built by `_process_batch`. -/
structure BatchSummary where
  processed_successfully : Nat
  failed_records : Nat
  skipped_duplicates : Nat
  errors : List String
deriving Repr, DecidableEq

/-- The body of `_process_batch`'s per-record loop: classify the submission
outcome — success marks the ledger and counts succeeded; a truthy error
matching the duplicate test marks the ledger and counts duplicate-skipped;
any other failure or caught exception counts failed, appends an error string
and appends to the failed ledger. -/
def process_record (out : RecOutcome) (now : String) (st : Ledgers)
    (sm : BatchSummary) (record_id : String) (record_data : Row) :
    Ledgers × BatchSummary :=
  match out with
  | .success =>
      (⟨save_processed_record record_id record_data now st.processed, st.failed⟩,
       ⟨sm.processed_successfully + 1, sm.failed_records,
        sm.skipped_duplicates, sm.errors⟩)
  | .failure error =>
      if errTruthy error && is_duplicate_error (error.getD "") then
        (⟨save_processed_record record_id record_data now st.processed, st.failed⟩,
         ⟨sm.processed_successfully, sm.failed_records,
          sm.skipped_duplicates + 1, sm.errors⟩)
      else
        (⟨st.processed,
          save_failed_record record_id record_data (errOrUnknown error) now st.failed⟩,
         ⟨sm.processed_successfully, sm.failed_records + 1, sm.skipped_duplicates,
          sm.errors ++ ["Error procesando " ++ record_id ++ ": " ++ pyShowOpt error]⟩)
  | .raised msg =>
      (⟨st.processed, save_failed_record record_id record_data msg now st.failed⟩,
       ⟨sm.processed_successfully, sm.failed_records + 1, sm.skipped_duplicates,
        sm.errors ++ ["Error inesperado procesando " ++ record_id ++ ": " ++ msg]⟩)

/-- `VehicleDataProcessor._process_batch`: processes every (id, data) pair of
the batch in order, starting from zeroed counters, threading the ledgers.
The remote behaviour per record id is supplied by the oracle `out`. -/
def process_batch (out : String → RecOutcome) (now : String) (st : Ledgers)
    (batch : List (String × Row)) : Ledgers × BatchSummary :=
  batch.foldl
    (fun acc pr => process_record (out pr.1) now acc.1 acc.2 pr.1 pr.2)
    (st, ⟨0, 0, 0, []⟩)

/-- C5: a failed submission whose error message passes the duplicate test
(contains "duplicate", "conflict" case-insensitively, or "409") marks the
record processed in the ledger and increments only the duplicate-skipped
counter; succeeded and failed counters, the error list and the failed ledger
are untouched. -/
theorem process_record_duplicate_classification (st : Ledgers)
    (sm : BatchSummary) (i : String) (r : Row) (now e : String)
    (hne : e ≠ "") (hdup : is_duplicate_error e = true) :
    process_record (.failure (some e)) now st sm i r =
      (⟨save_processed_record i r now st.processed, st.failed⟩,
       ⟨sm.processed_successfully, sm.failed_records,
        sm.skipped_duplicates + 1, sm.errors⟩) := by
  simp [process_record, errTruthy, hne, hdup]

theorem process_record_duplicate_classification_witness :
    process_record (.failure (some "Datos duplicados o conflicto: ya existe"))
        "t3" ⟨⟨[], []⟩, ⟨[]⟩⟩ ⟨0, 0, 0, []⟩ "T2_TOYOTA_HILUX_C1_F2" c2RowC =
      (⟨save_processed_record "T2_TOYOTA_HILUX_C1_F2" c2RowC "t3" ⟨[], []⟩, ⟨[]⟩⟩,
       ⟨0, 0, 0 + 1, []⟩) :=
  process_record_duplicate_classification ⟨⟨[], []⟩, ⟨[]⟩⟩ ⟨0, 0, 0, []⟩
    "T2_TOYOTA_HILUX_C1_F2" c2RowC "t3"
    "Datos duplicados o conflicto: ya existe" (by decide) (by decide)

/-- C6: `_process_batch` attempts every record of the batch exactly once — the
three counters always sum to the batch length, whatever each record's outcome —
and every failure (submission failure or caught exception) both increments the
failed counter and appends exactly one string to the error list. -/
theorem process_batch_attempts_every_record (out : String → RecOutcome)
    (now : String) (st : Ledgers) (batch : List (String × Row)) :
    (process_batch out now st batch).2.processed_successfully +
      (process_batch out now st batch).2.failed_records +
      (process_batch out now st batch).2.skipped_duplicates = batch.length ∧
    (process_batch out now st batch).2.errors.length =
      (process_batch out now st batch).2.failed_records := by
  have go : ∀ (bs : List (String × Row)) (st0 : Ledgers) (sm0 : BatchSummary),
      (bs.foldl (fun acc pr =>
          process_record (out pr.1) now acc.1 acc.2 pr.1 pr.2)
        (st0, sm0)).2.processed_successfully +
        (bs.foldl (fun acc pr =>
            process_record (out pr.1) now acc.1 acc.2 pr.1 pr.2)
          (st0, sm0)).2.failed_records +
        (bs.foldl (fun acc pr =>
            process_record (out pr.1) now acc.1 acc.2 pr.1 pr.2)
          (st0, sm0)).2.skipped_duplicates =
        sm0.processed_successfully + sm0.failed_records +
          sm0.skipped_duplicates + bs.length ∧
      (bs.foldl (fun acc pr =>
          process_record (out pr.1) now acc.1 acc.2 pr.1 pr.2)
        (st0, sm0)).2.errors.length + sm0.failed_records =
        sm0.errors.length +
          (bs.foldl (fun acc pr =>
              process_record (out pr.1) now acc.1 acc.2 pr.1 pr.2)
            (st0, sm0)).2.failed_records := by
    intro bs
    induction bs with
    | nil => intro st0 sm0; simp
    | cons pr rest ih =>
      intro st0 sm0
      simp only [List.foldl_cons]
      rcases hout : out pr.1 with _ | err | msg
      · obtain ⟨h1, h2⟩ := ih
          ⟨save_processed_record pr.1 pr.2 now st0.processed, st0.failed⟩
          ⟨sm0.processed_successfully + 1, sm0.failed_records,
           sm0.skipped_duplicates, sm0.errors⟩
        constructor
        · simp only [process_record] at h1 ⊢; simp at h1 ⊢; omega
        · simp only [process_record] at h2 ⊢; simp at h2 ⊢; omega
      · by_cases hd : (errTruthy err && is_duplicate_error (err.getD "")) = true
        · obtain ⟨h1, h2⟩ := ih
            ⟨save_processed_record pr.1 pr.2 now st0.processed, st0.failed⟩
            ⟨sm0.processed_successfully, sm0.failed_records,
             sm0.skipped_duplicates + 1, sm0.errors⟩
          constructor
          · simp only [process_record, hd, if_true] at h1 ⊢; simp at h1 ⊢; omega
          · simp only [process_record, hd, if_true] at h2 ⊢; simp at h2 ⊢; omega
        · obtain ⟨h1, h2⟩ := ih
            ⟨st0.processed,
             save_failed_record pr.1 pr.2 (errOrUnknown err) now st0.failed⟩
            ⟨sm0.processed_successfully, sm0.failed_records + 1,
             sm0.skipped_duplicates,
             sm0.errors ++ ["Error procesando " ++ pr.1 ++ ": " ++ pyShowOpt err]⟩
          constructor
          · simp only [process_record, hd, if_false] at h1 ⊢; simp [hd] at h1 ⊢; omega
          · simp only [process_record, hd, if_false] at h2 ⊢; simp [hd] at h2 ⊢; omega
      · obtain ⟨h1, h2⟩ := ih
          ⟨st0.processed, save_failed_record pr.1 pr.2 msg now st0.failed⟩
          ⟨sm0.processed_successfully, sm0.failed_records + 1,
           sm0.skipped_duplicates,
           sm0.errors ++ ["Error inesperado procesando " ++ pr.1 ++ ": " ++ msg]⟩
        constructor
        · simp only [process_record] at h1 ⊢; simp at h1 ⊢; omega
        · simp only [process_record] at h2 ⊢; simp at h2 ⊢; omega
  obtain ⟨h1, h2⟩ := go batch st ⟨0, 0, 0, []⟩
  exact ⟨by simpa [process_batch] using h1, by simpa [process_batch] using h2⟩

/-- What the remote endpoint (or the transport) does on one attempt of
`send_vehicle_data`. -/
inductive AttemptResult where
  | http (status : Nat) (text : String) (jsonOk : Bool) : AttemptResult
  | timeout : AttemptResult
  | connFail : AttemptResult
  | raised (msg : String) : AttemptResult
deriving Repr, DecidableEq

/-- The response value returned on success: the parsed JSON body, or the
synthetic success marker when the body is not valid JSON. -/
inductive SendResponse where
  | jsonBody (text : String) : SendResponse
  | syntheticSuccess : SendResponse
deriving Repr, DecidableEq

/-- The (success, response, error) triple returned by `send_vehicle_data`,
plus the observable attempt count and backoff sleeps (in seconds). -/
structure SendResult where
  success : Bool
  response : Option SendResponse
  error : Option String
  attemptsMade : Nat
  sleeps : List Nat
deriving Repr, DecidableEq

/-- The attempt loop of `ATIONETService.send_vehicle_data`, structurally
recursive on the remaining loop iterations (`attempt = retries - remaining`):
200/201 succeed; 409 returns the conflict message at once; any other status
>= 400 returns the client-error message at once; the remaining statuses fall
to the server-error branch, which sleeps 2^attempt and retries while
`attempt < retries - 1`; timeouts and connection errors retry with the same
backoff; any other exception returns at once. -/
def sendAux (responses : Nat → AttemptResult) (retries : Nat) :
    Nat → List Nat → SendResult
  | 0, sleeps =>
      ⟨false, none, some "Error después de múltiples intentos", retries, sleeps⟩
  | remaining + 1, sleeps =>
      let attempt := retries - (remaining + 1)
      match responses attempt with
      | .http status text jsonOk =>
          if status == 200 || status == 201 then
            ⟨true, some (if jsonOk then .jsonBody text else .syntheticSuccess),
             none, attempt + 1, sleeps⟩
          else if status == 409 then
            ⟨false, none, some ("Datos duplicados o conflicto: " ++ text),
             attempt + 1, sleeps⟩
          else if status ≥ 400 then
            ⟨false, none,
             some ("Error del cliente (" ++ toString status ++ "): " ++ text),
             attempt + 1, sleeps⟩
          else if attempt < retries - 1 then
            sendAux responses retries remaining (sleeps ++ [2 ^ attempt])
          else
            ⟨false, none,
             some ("Error del servidor (" ++ toString status ++ "): " ++ text),
             attempt + 1, sleeps⟩
      | .timeout =>
          if attempt < retries - 1 then
            sendAux responses retries remaining (sleeps ++ [2 ^ attempt])
          else
            ⟨false, none, some "Timeout después de múltiples intentos",
             attempt + 1, sleeps⟩
      | .connFail =>
          if attempt < retries - 1 then
            sendAux responses retries remaining (sleeps ++ [2 ^ attempt])
          else
            ⟨false, none,
             some "Error de conexión después de múltiples intentos",
             attempt + 1, sleeps⟩
      | .raised msg =>
          ⟨false, none, some ("Error inesperado: " ++ msg), attempt + 1, sleeps⟩

/-- `ATIONETService.send_vehicle_data`: runs the attempt loop over
`range(retries)` with no sleeps performed yet. -/
def send_vehicle_data (responses : Nat → AttemptResult) (retries : Nat) :
    SendResult :=
  sendAux responses retries retries []

/-- The C1 scenario: the endpoint answers HTTP 500 on the first two attempts
and HTTP 200 from the third on. -/
def c1Responses : Nat → AttemptResult := fun n =>
  if n < 2 then .http 500 "internal error" true else .http 200 "{}" true

/-- C1, the code evaluated at the failing input: with retries = 3 and HTTP
statuses 500, 500, 200, `send_vehicle_data` does not retry — it returns a
failed result after one attempt with no backoff sleeps, carrying the
client-error message, because the `status >= 400` branch also captures 5xx
and makes the server-error retry branch unreachable for those statuses.  The
claimed immediate returns for 409 and for other 4xx do hold, and the backoff
of 1s then 2s is performed for outcomes that are retried (here: timeouts). -/
theorem send_vehicle_data_5xx_no_retry :
    send_vehicle_data c1Responses 3 =
      ⟨false, none, some "Error del cliente (500): internal error", 1, []⟩ ∧
    send_vehicle_data (fun _ => .http 409 "dup" true) 3 =
      ⟨false, none, some "Datos duplicados o conflicto: dup", 1, []⟩ ∧
    send_vehicle_data (fun _ => .http 404 "nf" true) 3 =
      ⟨false, none, some "Error del cliente (404): nf", 1, []⟩ ∧
    send_vehicle_data (fun n => if n < 2 then .timeout else .http 200 "{}" true) 3 =
      ⟨true, some (.jsonBody "{}"), none, 3, [1, 2]⟩ := by
  decide

/-- The batch loop of `VehicleDataProcessor.process_all_vehicles`: slices
`records[i : i + batch_size]` for i = 0, batch_size, 2*batch_size, ... and
sleeps 1 second after a batch exactly when another batch follows
(`i + batch_size < len(records)`).  Returns the list of batches and the list
of inter-batch sleeps in seconds.  (The `0 < batch_size` conjunct totalises
the Python loop, whose `range` raises on step 0; the configured size is 10.) -/
def batch_partition_aux (batch_size : Nat) (records : List (String × Row))
    (i : Nat) : List (List (String × Row)) × List Nat :=
  if h : i < records.length ∧ 0 < batch_size then
    let b := (records.drop i).take batch_size
    let rest := batch_partition_aux batch_size records (i + batch_size)
    (b :: rest.1, (if i + batch_size < records.length then [1] else []) ++ rest.2)
  else ([], [])
termination_by records.length - i
decreasing_by omega

/-- The batch partition and pacing of `process_all_vehicles`, from i = 0. -/
def batch_partition (batch_size : Nat) (records : List (String × Row)) :
    List (List (String × Row)) × List Nat :=
  batch_partition_aux batch_size records 0

/-- C8: a run over 25 unprocessed records with batch size 10 partitions them
into the consecutive batches of 10, 10 and 5, and performs exactly two
inter-batch 1-second pauses — after batch 1 and after batch 2, none after the
final batch. -/
theorem batch_partition_25_10 (records : List (String × Row))
    (h : records.length = 25) :
    (batch_partition 10 records).1 =
      [records.take 10, (records.drop 10).take 10, (records.drop 20).take 10] ∧
    (batch_partition 10 records).1.map List.length = [10, 10, 5] ∧
    (batch_partition 10 records).2 = [1, 1] := by
  refine ⟨?_, ?_, ?_⟩ <;>
    simp [batch_partition, batch_partition_aux, h, List.take_drop]

/-- A concrete run of 25 unprocessed records for the C8 scenario. -/
def c8Records : List (String × Row) :=
  (List.range 25).map (fun n => (toString n, c2RowA))

theorem batch_partition_25_10_witness :
    (batch_partition 10 c8Records).1 =
      [c8Records.take 10, (c8Records.drop 10).take 10,
       (c8Records.drop 20).take 10] ∧
    (batch_partition 10 c8Records).1.map List.length = [10, 10, 5] ∧
    (batch_partition 10 c8Records).2 = [1, 1] :=
  batch_partition_25_10 c8Records (by simp [c8Records])

/-- The result object of `VehicleDataProcessor.get_processing_status`. -/
structure ProcessingStatus where
  total_records : Nat
  processed_records : Nat
  pending_records : Nat
  completion_percentage : ℚ
  error : Option String
deriving Repr, DecidableEq

/-- Python `round(x, 2)`: the value rounded to two decimal places, modelled on
exact rationals.  (Python rounds the nearest double half-to-even; no value
this development evaluates sits at a half.) -/
def round2 (q : ℚ) : ℚ :=
  (⌊q * 100 + 1 / 2⌋ : ℚ) / 100

/-- `VehicleDataProcessor.get_processing_status`: total CSV rows, processed
ids from the ledger file and pending records via the unprocessed filter, with
the completion percentage `round(processed / total * 100, 2)` when total > 0
and 0 otherwise; an exception in the try block (modelled as the CSV load
failing) yields the zeroed object carrying the error instead of raising. -/
def get_processing_status (load : Except String (List Row))
    (file : LedgerFile) : ProcessingStatus :=
  match load with
  | .error e => ⟨0, 0, 0, 0, some e⟩
  | .ok rows =>
      let processed_ids := get_processed_records file
      let pending := get_unprocessed_records rows processed_ids
      ⟨rows.length, processed_ids.length, pending.length,
       if 0 < rows.length then
         round2 ((processed_ids.length : ℚ) / (rows.length : ℚ) * 100)
       else 0, none⟩

/-- C9: the completion percentage is round(processed/total*100, 2) whenever
total > 0 — in particular 40 when total = 10 and processed = 4 — it is 0 when
the CSV has no rows, and an internal error produces the status object with the
error field set and every count zero instead of propagating. -/
theorem get_processing_status_spec (rows rows10 : List Row)
    (file file4 : LedgerFile) (e : String)
    (hpos : 0 < rows.length) (h10 : rows10.length = 10)
    (h4 : (get_processed_records file4).length = 4) :
    (get_processing_status (.ok rows) file).completion_percentage =
      round2 (((get_processed_records file).length : ℚ) /
        (rows.length : ℚ) * 100) ∧
    (get_processing_status (.ok rows10) file4).completion_percentage = 40 ∧
    (get_processing_status (.ok []) file).completion_percentage = 0 ∧
    get_processing_status (.error e) file = ⟨0, 0, 0, 0, some e⟩ := by
  refine ⟨by simp [get_processing_status, hpos], ?_,
    by simp [get_processing_status], rfl⟩
  have hfl : (⌊(4 : ℚ) / 10 * 100 * 100 + 1 / 2⌋ : ℤ) = 4000 := by
    have harg : (4 : ℚ) / 10 * 100 * 100 + 1 / 2 = 8001 / 2 := by norm_num
    rw [harg, Int.floor_eq_iff] <;> norm_num
  simp [get_processing_status, h10, h4, round2, hfl]
  norm_num

/-- Ten CSV rows for the C9 witness run. -/
def c9Rows10 : List Row := List.replicate 10 c2RowA

/-- A processed-ledger file holding four ids, for the C9 witness run. -/
def c9File4 : LedgerFile := .parsed (some ["a", "b", "c", "d"])

theorem get_processing_status_spec_witness :
    (get_processing_status (.ok [c2RowA])
        (.parsed (some []))).completion_percentage =
      round2 (((get_processed_records (.parsed (some []))).length : ℚ) /
        (([c2RowA] : List Row).length : ℚ) * 100) ∧
    (get_processing_status (.ok c9Rows10) c9File4).completion_percentage = 40 ∧
    (get_processing_status (.ok [])
        (.parsed (some []))).completion_percentage = 0 ∧
    get_processing_status (.error "boom") (.parsed (some [])) =
      ⟨0, 0, 0, 0, some "boom"⟩ :=
  get_processing_status_spec [c2RowA] c9Rows10 (.parsed (some [])) c9File4
    "boom" (by decide) (by simp [c9Rows10]) (by decide)
